import Mathlib

/-!
Verification of `GetTimeSinceProcessStart.h` (GetTimeSinceProcessStart v1.0.0).

The header defines one function, `GetTimeSinceProcessStart`, with three
mutually exclusive compile-time platform branches (Windows, Linux, Apple)
and an unsupported-platform fallback.  We embed the function shallowly:

* The OS collaborators (GetProcessTimes, GetSystemTimeAsFileTime, fopen on
  /proc/self/stat and /proc/uptime, fscanf decoding, sysconf, proc_pidinfo,
  gettimeofday) are modelled by an environment record per platform that
  fixes each call's success status and the data it would deliver.
* C `double` arithmetic is modelled over `ℚ`; every value the code ever
  feeds into the arithmetic (tick counts, 100-ns counts, timeval fields)
  is exactly representable, so the rational model tracks the source
  expressions symbolically.
* The function's observable side effects (which OS calls are made, which
  FILE handles are opened and closed, which diagnostics are logged via the
  GTSPS_LOG_ERROR macro) are returned as an event trace alongside the
  numeric result, in program order.
* The `GTSPS_DONT_LOG_ERRORS` configuration macro is the `logEnabled`
  flag: when it is `false`, GTSPS_LOG_ERROR expands to nothing.
-/

/-- Observable events of one call: the OS calls it performs, the handles it
opens and closes, and the diagnostics it logs. -/
inductive Event : Type
  | callGetProcessTimes
  | callGetSystemTimeAsFileTime
  | openStat
  | closeStat
  | callSysconf
  | openUptime
  | closeUptime
  | callProcPidinfo
  | callGettimeofday
  | log (msg : String)
  deriving DecidableEq

/-- The GTSPS_LOG_ERROR macro: with default or custom logging it emits the
message once; with GTSPS_DONT_LOG_ERRORS it expands to nothing
(header lines 121-126). -/
def gtspsLogError (logEnabled : Bool) (msg : String) : List Event :=
  if logEnabled then [Event.log msg] else []

/-- Windows FILETIME: two 32-bit halves of a 100-ns tick count
(header lines 142-144, 153-155). -/
structure FILETIME where
  dwLowDateTime : Nat
  dwHighDateTime : Nat
  deriving DecidableEq

/-- The ULARGE_INTEGER reassembly of a FILETIME: LowPart and HighPart are
written and QuadPart is read (header lines 142-145). -/
def uLargeIntegerQuadPart (ft : FILETIME) : Nat :=
  ft.dwHighDateTime * 4294967296 + ft.dwLowDateTime

/-- OS behaviour on the Windows branch: whether GetProcessTimes succeeds and
the FILETIME values the two time sources deliver.  GetSystemTimeAsFileTime
returns void and has no failure status. -/
structure WinEnv where
  getProcessTimesOk : Bool
  creationTime : FILETIME
  systemTime : FILETIME
  deriving DecidableEq

/-- Windows branch of GetTimeSinceProcessStart (header lines 132-160). -/
def getTimeSinceProcessStartWin (env : WinEnv) (logEnabled : Bool) :
    ℚ × List Event :=
  if env.getProcessTimesOk then
    let startTime : ℚ := (uLargeIntegerQuadPart env.creationTime : ℚ) / 10000000
    let currentTime : ℚ := (uLargeIntegerQuadPart env.systemTime : ℚ) / 10000000
    (currentTime - startTime,
     [Event.callGetProcessTimes, Event.callGetSystemTimeAsFileTime])
  else
    (0, Event.callGetProcessTimes ::
        gtspsLogError logEnabled "Error: Failed to call GetProcessTimes\n")

/-- OS behaviour on the Linux branch: whether each of /proc/self/stat and
/proc/uptime opens, what their fscanf decodes deliver (`none` models
`decoded != 1`), and the sysconf(_SC_CLK_TCK) constant (a C `long`). -/
structure LinuxEnv where
  statOpenOk : Bool
  statDecode : Option Nat
  clk_tck : Int
  uptimeOpenOk : Bool
  uptimeDecode : Option ℚ
  deriving DecidableEq

/-- Linux branch of GetTimeSinceProcessStart (header lines 162-211).  Note
the program order: fclose runs before the decode check on both files, and
sysconf runs only after the stat decode succeeded. -/
def getTimeSinceProcessStartLinux (env : LinuxEnv) (logEnabled : Bool) :
    ℚ × List Event :=
  if env.statOpenOk then
    match env.statDecode with
    | none =>
      (0, Event.openStat :: Event.closeStat ::
          gtspsLogError logEnabled "Error: Failed decoding /proc/self/stat.\n")
    | some startTime =>
      let clockTicksPerSecond : ℚ := (env.clk_tck : ℚ)
      let processStartTimeInSeconds : ℚ := (startTime : ℚ) / clockTicksPerSecond
      if env.uptimeOpenOk then
        match env.uptimeDecode with
        | none =>
          (0, Event.openStat :: Event.closeStat :: Event.callSysconf ::
              Event.openUptime :: Event.closeUptime ::
              gtspsLogError logEnabled "Error: Failed decoding /proc/uptime.\n")
        | some kernelUpTimeInSeconds =>
          (kernelUpTimeInSeconds - processStartTimeInSeconds,
           [Event.openStat, Event.closeStat, Event.callSysconf,
            Event.openUptime, Event.closeUptime])
      else
        (0, Event.openStat :: Event.closeStat :: Event.callSysconf ::
            gtspsLogError logEnabled "Error: Failed to open /proc/uptime.\n")
  else
    (0, gtspsLogError logEnabled "Error: Failed to open /proc/self/stat.\n")

/-- BSD timeval with seconds and microseconds fields
(header lines 214, 228). -/
structure timeval where
  tv_sec : Int
  tv_usec : Int
  deriving DecidableEq

/-- The two fields of proc_bsdinfo the code reads (both uint64_t in the OS
header; realistic start times are far below 2^63, where the conversion to
the signed timeval fields is the identity, so we coerce exactly). -/
structure proc_bsdinfo where
  pbi_start_tvsec : Nat
  pbi_start_tvusec : Nat
  deriving DecidableEq

/-- OS behaviour on the Apple branch: the status proc_pidinfo returns, the
info structure it fills, whether gettimeofday succeeds, and the timeval it
writes when it does. -/
structure AppleEnv where
  procPidinfoStatus : Int
  taskInfo : proc_bsdinfo
  gettimeofdaySucceeds : Bool
  gettimeofdayValue : timeval
  deriving DecidableEq

/-- Model of the gettimeofday OS call: on success it overwrites the buffer
with the current time; on failure it leaves the buffer as it was.  The
source never inspects its return status (header line 229). -/
def gettimeofday (env : AppleEnv) (buf : timeval) : timeval :=
  if env.gettimeofdaySucceeds then env.gettimeofdayValue else buf

/-- Apple branch of GetTimeSinceProcessStart (header lines 213-233).  The
local `currentTime` is zero-initialized (`= {}`) before the gettimeofday
call, and the seconds and microseconds fields are differenced separately
before being combined. -/
def getTimeSinceProcessStartApple (env : AppleEnv) (logEnabled : Bool) :
    ℚ × List Event :=
  if env.procPidinfoStatus ≤ 0 then
    (0, Event.callProcPidinfo ::
        gtspsLogError logEnabled "Error: proc_pidinfo failed")
  else
    let startTime : timeval :=
      ⟨(env.taskInfo.pbi_start_tvsec : Int), (env.taskInfo.pbi_start_tvusec : Int)⟩
    let currentTime : timeval := gettimeofday env ⟨0, 0⟩
    let timeInSeconds : ℚ :=
      ((currentTime.tv_sec - startTime.tv_sec : Int) : ℚ) +
      ((currentTime.tv_usec - startTime.tv_usec : Int) : ℚ) / 1000000
    (timeInSeconds, [Event.callProcPidinfo, Event.callGettimeofday])

/-- The compile-time platform selection (header lines 104-119, 132, 162,
213, 234): exactly one strategy exists in the binary, so a call is a call
into exactly one branch, or the fallback on an unrecognized platform. -/
inductive OSEnv : Type
  | win32 (env : WinEnv)
  | linuxOS (env : LinuxEnv)
  | appleOS (env : AppleEnv)
  | unsupported
  deriving DecidableEq

/-- GetTimeSinceProcessStart (header lines 130-238): result value together
with the trace of OS calls, handle operations and logged diagnostics.  On
an unrecognized platform the function body is `return 0.0`
(header lines 234-237). -/
def GetTimeSinceProcessStart (os : OSEnv) (logEnabled : Bool) :
    ℚ × List Event :=
  match os with
  | .win32 env => getTimeSinceProcessStartWin env logEnabled
  | .linuxOS env => getTimeSinceProcessStartLinux env logEnabled
  | .appleOS env => getTimeSinceProcessStartApple env logEnabled
  | .unsupported => (0, [])

/-- Is an event a logged diagnostic? -/
def isLogEvent : Event → Bool
  | Event.log _ => true
  | _ => false

/-- Number of diagnostics logged in a trace. -/
def numLogs (trace : List Event) : Nat :=
  (trace.filter isLogEvent).length

/-- Is an event part of the current-time probe (GetSystemTimeAsFileTime,
the /proc/uptime read, or gettimeofday)? -/
def isCurrentProbeEvent : Event → Bool
  | Event.callGetSystemTimeAsFileTime => true
  | Event.openUptime => true
  | Event.closeUptime => true
  | Event.callGettimeofday => true
  | _ => false

/-- The creation-time probe fails: GetProcessTimes returns FALSE, the
/proc/self/stat open or decode fails, or proc_pidinfo returns a
non-positive status. -/
def creationProbeFails : OSEnv → Bool
  | .win32 env => !env.getProcessTimesOk
  | .linuxOS env => !env.statOpenOk || env.statDecode.isNone
  | .appleOS env => decide (env.procPidinfoStatus ≤ 0)
  | .unsupported => false

/-- A probe failure the code actually detects: the creation-time probe on
any branch, or the /proc/uptime open or decode on the Linux branch.  (The
Windows current-time call returns void, and the Apple branch ignores the
gettimeofday return status.) -/
def detectedProbeFailure : OSEnv → Bool
  | .win32 env => !env.getProcessTimesOk
  | .linuxOS env => !env.statOpenOk || env.statDecode.isNone ||
                    !env.uptimeOpenOk || env.uptimeDecode.isNone
  | .appleOS env => decide (env.procPidinfoStatus ≤ 0)
  | .unsupported => false

/-- Both probes succeed on the selected platform's branch. -/
def probesSucceed : OSEnv → Bool
  | .win32 env => env.getProcessTimesOk
  | .linuxOS env => env.statOpenOk && env.statDecode.isSome &&
                    env.uptimeOpenOk && env.uptimeDecode.isSome
  | .appleOS env => decide (0 < env.procPidinfoStatus) && env.gettimeofdaySucceeds
  | .unsupported => false

/-- The creation timestamp the branch samples, expressed in seconds in the
platform's clock domain (100-ns ticks / 1e7 on Windows; scheduler ticks
over sysconf(_SC_CLK_TCK) on Linux; seconds + microseconds/1e6 on Apple). -/
def sampledCreation : OSEnv → ℚ
  | .win32 env => (uLargeIntegerQuadPart env.creationTime : ℚ) / 10000000
  | .linuxOS env => ((env.statDecode.getD 0 : Nat) : ℚ) / (env.clk_tck : ℚ)
  | .appleOS env => (env.taskInfo.pbi_start_tvsec : ℚ) +
                    (env.taskInfo.pbi_start_tvusec : ℚ) / 1000000
  | .unsupported => 0

/-- The current timestamp the branch samples, in the same clock domain as
`sampledCreation` (kernel uptime on Linux). -/
def sampledCurrent : OSEnv → ℚ
  | .win32 env => (uLargeIntegerQuadPart env.systemTime : ℚ) / 10000000
  | .linuxOS env => env.uptimeDecode.getD 0
  | .appleOS env => (env.gettimeofdayValue.tv_sec : ℚ) +
                    (env.gettimeofdayValue.tv_usec : ℚ) / 1000000
  | .unsupported => 0

/-! ## Shared helper lemmas -/

/-- When both probes succeed, the result is exactly the sampled current
time minus the sampled creation time, and nothing is logged. -/
theorem result_of_success (os : OSEnv) (logEnabled : Bool)
    (h : probesSucceed os = true) :
    (GetTimeSinceProcessStart os logEnabled).1 =
      sampledCurrent os - sampledCreation os ∧
    numLogs (GetTimeSinceProcessStart os logEnabled).2 = 0 := by
  cases os with
  | win32 env =>
    simp only [probesSucceed] at h
    simp [GetTimeSinceProcessStart, getTimeSinceProcessStartWin, h,
          sampledCurrent, sampledCreation, numLogs, isLogEvent]
  | linuxOS env =>
    simp only [probesSucceed, Bool.and_eq_true, Option.isSome_iff_exists] at h
    obtain ⟨⟨⟨h1, t, ht⟩, h2⟩, u, hu⟩ := h
    simp [GetTimeSinceProcessStart, getTimeSinceProcessStartLinux, h1, h2,
          ht, hu, sampledCurrent, sampledCreation, numLogs, isLogEvent]
  | appleOS env =>
    simp only [probesSucceed, Bool.and_eq_true, decide_eq_true_eq] at h
    obtain ⟨h1, h2⟩ := h
    have hle : ¬ env.procPidinfoStatus ≤ 0 := by omega
    simp only [GetTimeSinceProcessStart, getTimeSinceProcessStartApple, hle,
               if_false, gettimeofday, h2, if_true, sampledCurrent,
               sampledCreation, numLogs, isLogEvent]
    constructor
    · push_cast
      ring
    · rfl
  | unsupported => simp [probesSucceed] at h

/-! ## Claims -/

/-- C3: on the tick-based (Linux) branch, a status record whose decoded
start-time tick count is 500, with sysconf(_SC_CLK_TCK) = 100 and a kernel
uptime of 10.0 seconds, makes GetTimeSinceProcessStart return exactly
10.0 - 500/100 = 5.0 seconds. -/
theorem c3_linux_scenario :
    (GetTimeSinceProcessStart
      (OSEnv.linuxOS ⟨true, some 500, 100, true, some 10⟩) true).1 = 5 := by
  norm_num [GetTimeSinceProcessStart, getTimeSinceProcessStartLinux]

/-- C4: on the accounting-timestamp (Windows) branch, a creation FILETIME of
100000000 hundred-nanosecond ticks and a system FILETIME of 150000000
hundred-nanosecond ticks make GetTimeSinceProcessStart return exactly
150000000/1e7 - 100000000/1e7 = 5.0 seconds. -/
theorem c4_windows_scenario :
    (GetTimeSinceProcessStart
      (OSEnv.win32 ⟨true, ⟨100000000, 0⟩, ⟨150000000, 0⟩⟩) true).1 = 5 := by
  norm_num [GetTimeSinceProcessStart, getTimeSinceProcessStartWin,
            uLargeIntegerQuadPart]

/-- C6: on a platform not recognized by the compile-time detection,
GetTimeSinceProcessStart returns 0.0 unconditionally, performs no OS call,
opens no handle, and emits no diagnostic (the trace is empty), whatever the
logging configuration. -/
theorem c6_unsupported_fallback (logEnabled : Bool) :
    GetTimeSinceProcessStart OSEnv.unsupported logEnabled = (0, []) := rfl

/-- C9: on the Linux branch the sysconf(_SC_CLK_TCK) constant is used
without validation: for every value of the constant, including zero and
negative values, once both file reads decode, the function still forms
uptime minus startTicks/clk_tck and returns it with the normal trace --
no 0.0 sentinel is substituted and no diagnostic is emitted. -/
theorem c9_clk_tck_unvalidated (clk : Int) (startTicks : Nat) (uptime : ℚ)
    (logEnabled : Bool) :
    GetTimeSinceProcessStart
      (OSEnv.linuxOS ⟨true, some startTicks, clk, true, some uptime⟩) logEnabled =
      (uptime - (startTicks : ℚ) / (clk : ℚ),
       [Event.openStat, Event.closeStat, Event.callSysconf,
        Event.openUptime, Event.closeUptime]) := rfl

/-- C5: whenever both probes succeed and the sampled current time is at
least the sampled creation time in the platform's clock domain, the
returned value is at least 0.0; on the Apple branch the separately
differenced seconds and microseconds fields recombine to exactly the same
quantity, so the bound carries over. -/
theorem c5_nonneg (os : OSEnv) (logEnabled : Bool)
    (h1 : probesSucceed os = true)
    (h2 : sampledCreation os ≤ sampledCurrent os) :
    0 ≤ (GetTimeSinceProcessStart os logEnabled).1 := by
  have h := (result_of_success os logEnabled h1).1
  rw [h]
  linarith

/-- C5 witness: a concrete Apple-branch call with both probes succeeding
and current (15.25 s) past creation (10.5 s) returns a value ≥ 0. -/
theorem c5_nonneg_witness :
    0 ≤ (GetTimeSinceProcessStart
          (OSEnv.appleOS ⟨1, ⟨10, 500000⟩, true, ⟨15, 250000⟩⟩) true).1 :=
  c5_nonneg (OSEnv.appleOS ⟨1, ⟨10, 500000⟩, true, ⟨15, 250000⟩⟩) true
    (by decide)
    (by norm_num [sampledCreation, sampledCurrent])

/-- C10: whenever both probes succeed but the sampled current time is
smaller than the sampled creation time, the function returns the negative
difference unchanged: the result equals current minus creation, is
strictly negative (not clamped to 0.0), and no diagnostic is emitted. -/
theorem c10_negative_unclamped (os : OSEnv) (logEnabled : Bool)
    (h1 : probesSucceed os = true)
    (h2 : sampledCurrent os < sampledCreation os) :
    (GetTimeSinceProcessStart os logEnabled).1 =
      sampledCurrent os - sampledCreation os ∧
    (GetTimeSinceProcessStart os logEnabled).1 < 0 ∧
    numLogs (GetTimeSinceProcessStart os logEnabled).2 = 0 := by
  obtain ⟨h, hlogs⟩ := result_of_success os logEnabled h1
  refine ⟨h, ?_, hlogs⟩
  rw [h]
  linarith

/-- C10 witness: a concrete Windows-branch call whose system time
(50000000 ticks = 5 s) precedes its creation time (100000000 ticks = 10 s)
returns exactly -5, a negative value, with no diagnostic. -/
theorem c10_negative_unclamped_witness :
    (GetTimeSinceProcessStart
      (OSEnv.win32 ⟨true, ⟨100000000, 0⟩, ⟨50000000, 0⟩⟩) true).1 =
      sampledCurrent (OSEnv.win32 ⟨true, ⟨100000000, 0⟩, ⟨50000000, 0⟩⟩) -
      sampledCreation (OSEnv.win32 ⟨true, ⟨100000000, 0⟩, ⟨50000000, 0⟩⟩) ∧
    (GetTimeSinceProcessStart
      (OSEnv.win32 ⟨true, ⟨100000000, 0⟩, ⟨50000000, 0⟩⟩) true).1 < 0 ∧
    numLogs (GetTimeSinceProcessStart
      (OSEnv.win32 ⟨true, ⟨100000000, 0⟩, ⟨50000000, 0⟩⟩) true).2 = 0 :=
  c10_negative_unclamped (OSEnv.win32 ⟨true, ⟨100000000, 0⟩, ⟨50000000, 0⟩⟩)
    true (by decide)
    (by norm_num [sampledCreation, sampledCurrent, uLargeIntegerQuadPart])

/-- Occurrences of an event in a trace. -/
def countEvent (e : Event) : List Event → Nat
  | [] => 0
  | x :: xs => (if x = e then 1 else 0) + countEvent e xs

/-- C2: whenever the creation-time probe fails (GetProcessTimes FALSE, a
/proc/self/stat open or decode failure, or a non-positive proc_pidinfo
status), GetTimeSinceProcessStart returns 0.0 immediately, emits exactly
one diagnostic (none when logging is disabled), and performs no part of the
current-time probe. -/
theorem c2_creation_failure_early_return (os : OSEnv) (logEnabled : Bool)
    (h : creationProbeFails os = true) :
    (GetTimeSinceProcessStart os logEnabled).1 = 0 ∧
    numLogs (GetTimeSinceProcessStart os logEnabled).2 =
      (if logEnabled then 1 else 0) ∧
    ∀ e ∈ (GetTimeSinceProcessStart os logEnabled).2,
      isCurrentProbeEvent e = false := by
  cases os with
  | win32 env =>
    simp only [creationProbeFails, Bool.not_eq_true'] at h
    cases logEnabled <;>
      simp [GetTimeSinceProcessStart, getTimeSinceProcessStartWin, h,
            gtspsLogError, numLogs, isLogEvent, isCurrentProbeEvent]
  | linuxOS env =>
    rcases env with ⟨so, sd, ck, uo, ud⟩
    cases so <;> cases sd <;> cases logEnabled <;>
      simp_all [creationProbeFails, GetTimeSinceProcessStart,
                getTimeSinceProcessStartLinux, gtspsLogError, numLogs,
                isLogEvent, isCurrentProbeEvent]
  | appleOS env =>
    simp only [creationProbeFails, decide_eq_true_eq] at h
    cases logEnabled <;>
      simp [GetTimeSinceProcessStart, getTimeSinceProcessStartApple,
            if_pos h, gtspsLogError, numLogs, isLogEvent, isCurrentProbeEvent]
  | unsupported => simp [creationProbeFails] at h

/-- C2 witness: with /proc/self/stat failing to open and logging enabled,
the concrete call returns 0.0, logs once, and touches nothing of the
current-time probe. -/
theorem c2_creation_failure_early_return_witness :
    (GetTimeSinceProcessStart
      (OSEnv.linuxOS ⟨false, none, 100, true, some 10⟩) true).1 = 0 ∧
    numLogs (GetTimeSinceProcessStart
      (OSEnv.linuxOS ⟨false, none, 100, true, some 10⟩) true).2 =
      (if true then 1 else 0) ∧
    ∀ e ∈ (GetTimeSinceProcessStart
      (OSEnv.linuxOS ⟨false, none, 100, true, some 10⟩) true).2,
      isCurrentProbeEvent e = false :=
  c2_creation_failure_early_return
    (OSEnv.linuxOS ⟨false, none, 100, true, some 10⟩) true (by decide)

/-- C7: on the Apple branch the creation-time probe is treated as failed
exactly when proc_pidinfo returns a non-positive status: in that case the
call returns 0.0 and logs the proc_pidinfo diagnostic; with a positive
status nothing is logged and the call proceeds to gettimeofday. -/
theorem c7_apple_nonpositive_status (env : AppleEnv) :
    (env.procPidinfoStatus ≤ 0 →
      GetTimeSinceProcessStart (OSEnv.appleOS env) true =
        (0, [Event.callProcPidinfo, Event.log "Error: proc_pidinfo failed"])) ∧
    (0 < env.procPidinfoStatus →
      numLogs (GetTimeSinceProcessStart (OSEnv.appleOS env) true).2 = 0 ∧
      Event.callGettimeofday ∈
        (GetTimeSinceProcessStart (OSEnv.appleOS env) true).2) := by
  constructor
  · intro h
    simp [GetTimeSinceProcessStart, getTimeSinceProcessStartApple, if_pos h,
          gtspsLogError]
  · intro h
    have hle : ¬ env.procPidinfoStatus ≤ 0 := by omega
    simp [GetTimeSinceProcessStart, getTimeSinceProcessStartApple, hle,
          numLogs, isLogEvent]

/-- C7 witness: proc_pidinfo status 0 yields 0.0 with the proc_pidinfo
diagnostic, and status 1 yields a call that logs nothing and reaches
gettimeofday. -/
theorem c7_apple_nonpositive_status_witness :
    GetTimeSinceProcessStart (OSEnv.appleOS ⟨0, ⟨0, 0⟩, true, ⟨0, 0⟩⟩) true =
      (0, [Event.callProcPidinfo, Event.log "Error: proc_pidinfo failed"]) ∧
    (numLogs (GetTimeSinceProcessStart
        (OSEnv.appleOS ⟨1, ⟨0, 0⟩, true, ⟨0, 0⟩⟩) true).2 = 0 ∧
      Event.callGettimeofday ∈
        (GetTimeSinceProcessStart
          (OSEnv.appleOS ⟨1, ⟨0, 0⟩, true, ⟨0, 0⟩⟩) true).2) :=
  ⟨(c7_apple_nonpositive_status ⟨0, ⟨0, 0⟩, true, ⟨0, 0⟩⟩).1 (by decide),
   (c7_apple_nonpositive_status ⟨1, ⟨0, 0⟩, true, ⟨0, 0⟩⟩).2 (by decide)⟩

/-- C8: on the tick-based (Linux) branch every handle the call opens is
closed before it returns, on every exit path including the early-failure
paths where decoding fails: in each trace the /proc/self/stat opens equal
its closes and the /proc/uptime opens equal its closes. -/
theorem c8_handles_closed (env : LinuxEnv) (logEnabled : Bool) :
    countEvent Event.openStat
        (GetTimeSinceProcessStart (OSEnv.linuxOS env) logEnabled).2 =
      countEvent Event.closeStat
        (GetTimeSinceProcessStart (OSEnv.linuxOS env) logEnabled).2 ∧
    countEvent Event.openUptime
        (GetTimeSinceProcessStart (OSEnv.linuxOS env) logEnabled).2 =
      countEvent Event.closeUptime
        (GetTimeSinceProcessStart (OSEnv.linuxOS env) logEnabled).2 := by
  rcases env with ⟨so, sd, ck, uo, ud⟩
  cases so <;> cases sd <;> cases uo <;> cases ud <;> cases logEnabled <;>
    simp [GetTimeSinceProcessStart, getTimeSinceProcessStartLinux,
          gtspsLogError, countEvent]

/-- C1 counterexample: on the Apple branch with proc_pidinfo succeeding
(status 1, start time 10 s) but the current-time probe gettimeofday
failing, the source ignores the failure (line 229 discards the return
status) and uses the zero-initialized buffer: with logging enabled the
call returns -10, not 0.0, and emits no diagnostic, refuting the claim
that any failing probe yields 0.0 with exactly one diagnostic. -/
theorem c1_counterexample :
    (AppleEnv.mk 1 ⟨10, 0⟩ false ⟨0, 0⟩).gettimeofdaySucceeds = false ∧
    creationProbeFails (OSEnv.appleOS (AppleEnv.mk 1 ⟨10, 0⟩ false ⟨0, 0⟩)) =
      false ∧
    (GetTimeSinceProcessStart
      (OSEnv.appleOS (AppleEnv.mk 1 ⟨10, 0⟩ false ⟨0, 0⟩)) true).1 = -10 ∧
    numLogs (GetTimeSinceProcessStart
      (OSEnv.appleOS (AppleEnv.mk 1 ⟨10, 0⟩ false ⟨0, 0⟩)) true).2 = 0 := by
  refine ⟨rfl, by decide, ?_, by decide⟩
  norm_num [GetTimeSinceProcessStart, getTimeSinceProcessStartApple,
            gettimeofday, numLogs, isLogEvent]

/-- C1 amended: for every probe failure the code detects -- the
creation-time probe on any branch, or the /proc/uptime current-time probe
on the tick-based branch -- the function returns exactly 0.0 and emits
exactly one diagnostic naming the failing call, or zero diagnostics when
error logging is disabled at configuration time.  (The Windows current-time
call has no failure status, and the Apple branch ignores gettimeofday's
failure status, so those two failures are not detected.) -/
theorem c1_amended_detected_failure (os : OSEnv) (logEnabled : Bool)
    (h : detectedProbeFailure os = true) :
    (GetTimeSinceProcessStart os logEnabled).1 = 0 ∧
    numLogs (GetTimeSinceProcessStart os logEnabled).2 =
      (if logEnabled then 1 else 0) := by
  cases os with
  | win32 env =>
    simp only [detectedProbeFailure, Bool.not_eq_true'] at h
    cases logEnabled <;>
      simp [GetTimeSinceProcessStart, getTimeSinceProcessStartWin, h,
            gtspsLogError, numLogs, isLogEvent]
  | linuxOS env =>
    rcases env with ⟨so, sd, ck, uo, ud⟩
    cases so <;> cases sd <;> cases uo <;> cases ud <;> cases logEnabled <;>
      simp_all [detectedProbeFailure, GetTimeSinceProcessStart,
                getTimeSinceProcessStartLinux, gtspsLogError, numLogs,
                isLogEvent]
  | appleOS env =>
    simp only [detectedProbeFailure, decide_eq_true_eq] at h
    cases logEnabled <;>
      simp [GetTimeSinceProcessStart, getTimeSinceProcessStartApple,
            if_pos h, gtspsLogError, numLogs, isLogEvent]
  | unsupported => simp [detectedProbeFailure] at h

/-- C1 amended witness: a concrete /proc/uptime decode failure with logging
enabled returns 0.0 with exactly one diagnostic. -/
theorem c1_amended_detected_failure_witness :
    (GetTimeSinceProcessStart
      (OSEnv.linuxOS ⟨true, some 500, 100, true, none⟩) true).1 = 0 ∧
    numLogs (GetTimeSinceProcessStart
      (OSEnv.linuxOS ⟨true, some 500, 100, true, none⟩) true).2 =
      (if true then 1 else 0) :=
  c1_amended_detected_failure
    (OSEnv.linuxOS ⟨true, some 500, 100, true, none⟩) true (by decide)
